import Mathlib

/-!
# Mock IOMMU hook registry, DMA-ops wrapper and DWC3 host glue

Shallow embedding of

* `drivers/test_iommu/mock_iommu.c` (hook registry, the `mock_dma_ops`
  wrapper functions and `mock_attach_dev`), and
* `drivers/usb/dwc3/host.c` (`dwc3_host_get_irq`, `dwc3_host_init`).

Pointers are modelled by natural numbers (addresses / identities), kernel
state by explicit state passing, and calls into code that lives outside the
two files (the original `dma_map_ops` of a device, the generic coherent
allocator, the platform bus) by oracle fields of an environment record together
with an event trace.  Both compile-time switches `ENABLE_SMC_TEST` and
`ENABLE_LOG_TEST` are `0` in the source, so the blocks they guard are not part
of the compiled program and are not modelled.
-/

namespace MockIommu

/-! ## Data model -/

/-- Errno value `ENOMEM`. -/
def ENOMEM : Int := 12

/-- Attribute bit `DMA_ATTR_SKIP_CPU_SYNC`, `(1UL << 5)` in `linux/dma-mapping.h`. -/
def DMA_ATTR_SKIP_CPU_SYNC : Nat := 2 ^ 5

/-- Width of `phys_addr_t`, `dma_addr_t` and `unsigned long` on the 64-bit
target of the driver. -/
def ADDR_MOD : Nat := 2 ^ 64

/-- A value of type `const struct dma_map_ops *`: the null pointer, the address
of the module's own static table `mock_dma_ops`, or the address of some other
table, identified by a number. -/
inductive OpsRef where
  | NULL
  | mock_dma_ops
  | table (id : Nat)
  deriving DecidableEq, Repr

/-- The C `enum dma_data_direction`. -/
inductive dma_data_direction where
  | DMA_BIDIRECTIONAL
  | DMA_TO_DEVICE
  | DMA_FROM_DEVICE
  | DMA_NONE
  deriving DecidableEq, Repr

/-- The C `struct mock_dev_hook` without its list linkage: `dev` is the
`struct device *` (an address), `orig` the captured table pointer. -/
structure mock_dev_hook where
  dev : Nat
  orig : OpsRef
  deriving DecidableEq, Repr

/-- The fields of `struct device` the module reads or writes: the result of
`dev_name(dev)` (`none` for a null name) and the `dma_ops` member. -/
structure device where
  name : Option String
  dma_ops : OpsRef
  deriving DecidableEq, Repr

/-- Mutable state seen by the module: the static list `hook_list` (head first)
and the device structures, indexed by address. -/
structure State where
  hook_list : List mock_dev_hook
  devs : Nat → device

/-- One entry of a scatter list: the page it points at, `offset`, `length`,
and the two output members `dma_address` and `dma_length`. -/
structure scatterlist where
  page : Nat
  offset : Nat
  length : Nat
  dma_address : Nat
  dma_length : Nat
  deriving DecidableEq, Repr

/-- The members of a foreign `struct dma_map_ops` that the wrapper
dereferences.  `none` is a null function pointer.  The value-returning
operations are oracles for their results (`map_sg` also returns the scatter
list as the callee left it); the two `void` operations are recorded in the
trace only, so only their presence matters. -/
structure dma_map_ops where
  map_page : Option (Nat → Nat → Nat → Nat → dma_data_direction → Nat → Nat)
  unmap_page : Bool
  map_sg : Option (Nat → List scatterlist → Int → dma_data_direction → Nat →
    Int × List scatterlist)
  unmap_sg : Bool

/-- Observable calls made by the wrapper into code outside the module. -/
inductive Event where
  | arch_sync_dma_for_device (pa size : Nat) (dir : dma_data_direction)
  | arch_sync_dma_for_cpu (pa size : Nat) (dir : dma_data_direction)
  | orig_map_page (tbl dev page offset size : Nat) (dir : dma_data_direction) (attrs : Nat)
  | orig_unmap_page (tbl dev addr size : Nat) (dir : dma_data_direction) (attrs : Nat)
  | orig_map_sg (tbl dev : Nat) (sgl : List scatterlist) (nents : Int)
      (dir : dma_data_direction) (attrs : Nat)
  | orig_unmap_sg (tbl dev : Nat) (sgl : List scatterlist) (nents : Int)
      (dir : dma_data_direction) (attrs : Nat)
  deriving DecidableEq, Repr

/-- Result of the generic coherent allocator: the returned CPU pointer
(`0` is the null pointer of a failed allocation) and the value it stored
through `dma_handle`, if it stored one. -/
structure AllocOutcome where
  cpu_addr : Nat
  dma_handle : Option Nat
  deriving DecidableEq, Repr

/-- Kernel code the module calls but does not define.
* `page_to_phys` is the architecture macro of that name.
* `tables id` is the contents of the foreign operation table at `table id`.
* `dma_alloc_attrs` and `dma_free_attrs` are the generic coherent allocation
  paths: they see the device structures as the caller left them and may leave
  them changed; they cannot reach the module's static `hook_list`. -/
structure Kernel where
  page_to_phys : Nat → Nat
  tables : Nat → dma_map_ops
  dma_alloc_attrs : (Nat → device) → Nat → Nat → Nat → Nat → AllocOutcome × (Nat → device)
  dma_free_attrs : (Nat → device) → Nat → Nat → Nat → Nat → Nat → (Nat → device)

/-! ## A) per-device hook -/

/-- Source `hook_find_locked`: first entry of the list whose `dev` is the
given device, or `none` for the null result. -/
def hook_find_locked (hook_list : List mock_dev_hook) (dev : Nat) : Option mock_dev_hook :=
  match hook_list with
  | [] => none
  | h :: rest => if h.dev = dev then some h else hook_find_locked rest dev

/-- Source `hook_get_orig`: the `orig` member of the entry found, `NULL` when
there is none. -/
def hook_get_orig (hook_list : List mock_dev_hook) (dev : Nat) : OpsRef :=
  match hook_find_locked hook_list dev with
  | some h => h.orig
  | none => OpsRef.NULL

/-- Source `hook_install`.  `kzalloc_ok` is whether the `kzalloc` of the new
entry returned a non-null pointer.  Returns the C return value and the list
afterwards (`list_add_tail` appends). -/
def hook_install (hook_list : List mock_dev_hook) (kzalloc_ok : Bool) (dev : Nat)
    (orig : OpsRef) : Int × List mock_dev_hook :=
  if !kzalloc_ok then
    (-ENOMEM, hook_list)
  else
    let h : mock_dev_hook := { dev := dev, orig := orig }
    match hook_find_locked hook_list dev with
    | some _ => (0, hook_list)
    | none => (0, hook_list ++ [h])

/-- The entries of the registry that belong to `dev`, in list order. -/
def entries_for (hook_list : List mock_dev_hook) (dev : Nat) : List mock_dev_hook :=
  hook_list.filter (fun h => decide (h.dev = dev))

/-! ## B) DMA-ops wrapper -/

/-- Why a modelled call produced no value: the call-depth bound of the model
was used up by re-entrant calls, or the C code dereferenced a null pointer. -/
inductive Fault where
  | out_of_fuel
  | null_deref
  deriving DecidableEq, Repr

/-- The C expression `page_to_phys(page) + offset` evaluated in `phys_addr_t`. -/
def phys_of (k : Kernel) (page offset : Nat) : Nat :=
  (k.page_to_phys page + offset) % ADDR_MOD

/-- The fallback branch of `mock_map_page`: cache sync unless the attribute
word has `DMA_ATTR_SKIP_CPU_SYNC`, then `dma = (dma_addr_t)pa`. -/
def map_page_fallback (pa size : Nat) (dir : dma_data_direction) (attrs : Nat) :
    Nat × List Event :=
  let tr := if attrs &&& DMA_ATTR_SKIP_CPU_SYNC = 0 then
    [Event.arch_sync_dma_for_device pa size dir] else []
  (pa % ADDR_MOD, tr)

/-- Source `mock_map_page`.  The first argument bounds the call depth: when the
registered original is `mock_dma_ops` itself, `orig->map_page` is
`mock_map_page` and the call re-enters this function.  Returns the
`dma_addr_t` result and the trace of outside calls. -/
def mock_map_page (k : Kernel) (hook_list : List mock_dev_hook) :
    Nat → Nat → Nat → Nat → Nat → dma_data_direction → Nat → Except Fault (Nat × List Event)
  | 0, _, _, _, _, _, _ => Except.error Fault.out_of_fuel
  | fuel + 1, dev, page, offset, size, dir, attrs =>
    let orig := hook_get_orig hook_list dev
    let pa := phys_of k page offset
    match orig with
    | OpsRef.NULL => Except.ok (map_page_fallback pa size dir attrs)
    | OpsRef.mock_dma_ops => mock_map_page k hook_list fuel dev page offset size dir attrs
    | OpsRef.table id =>
      match (k.tables id).map_page with
      | some f => Except.ok (f dev page offset size dir attrs,
          [Event.orig_map_page id dev page offset size dir attrs])
      | none => Except.ok (map_page_fallback pa size dir attrs)

/-- The fallback branch of `mock_unmap_page`. -/
def unmap_page_fallback (addr size : Nat) (dir : dma_data_direction) (attrs : Nat) :
    List Event :=
  if attrs &&& DMA_ATTR_SKIP_CPU_SYNC = 0 then
    [Event.arch_sync_dma_for_cpu (addr % ADDR_MOD) size dir] else []

/-- Source `mock_unmap_page`; returns the trace of outside calls. -/
def mock_unmap_page (k : Kernel) (hook_list : List mock_dev_hook) :
    Nat → Nat → Nat → Nat → dma_data_direction → Nat → Except Fault (List Event)
  | 0, _, _, _, _, _ => Except.error Fault.out_of_fuel
  | fuel + 1, dev, addr, size, dir, attrs =>
    match hook_get_orig hook_list dev with
    | OpsRef.NULL => Except.ok (unmap_page_fallback addr size dir attrs)
    | OpsRef.mock_dma_ops => mock_unmap_page k hook_list fuel dev addr size dir attrs
    | OpsRef.table id =>
      if (k.tables id).unmap_page then
        Except.ok [Event.orig_unmap_page id dev addr size dir attrs]
      else Except.ok (unmap_page_fallback addr size dir attrs)

/-- Inline helper `sg_phys`: `page_to_phys(sg_page(sg)) + sg->offset`. -/
def sg_phys (k : Kernel) (sg : scatterlist) : Nat :=
  (k.page_to_phys sg.page + sg.offset) % ADDR_MOD

/-- The `for_each_sg` loop of `mock_map_sg`: `n` iterations remain and the
cursor `sg` is the head of the list (`sg_next` of the last entry is null, the
empty list).  An iteration with a null cursor dereferences it. -/
def map_sg_loop (k : Kernel) : Nat → List scatterlist → Except Fault (List scatterlist)
  | 0, sgl => Except.ok sgl
  | _ + 1, [] => Except.error Fault.null_deref
  | n + 1, sg :: rest =>
    match map_sg_loop k n rest with
    | Except.ok rest1 =>
      Except.ok ({ sg with dma_address := sg_phys k sg, dma_length := sg.length } :: rest1)
    | Except.error e => Except.error e

/-- The fallback branch of `mock_map_sg`: run the loop for `nents`
iterations (none when `nents <= 0`) and return `nents`. -/
def map_sg_fallback (k : Kernel) (sgl : List scatterlist) (nents : Int) :
    Except Fault (Int × List scatterlist × List Event) :=
  match map_sg_loop k nents.toNat sgl with
  | Except.ok sgl1 => Except.ok (nents, sgl1, [])
  | Except.error e => Except.error e

/-- Source `mock_map_sg`; returns the C return value, the scatter list
afterwards and the trace of outside calls. -/
def mock_map_sg (k : Kernel) (hook_list : List mock_dev_hook) :
    Nat → Nat → List scatterlist → Int → dma_data_direction → Nat →
      Except Fault (Int × List scatterlist × List Event)
  | 0, _, _, _, _, _ => Except.error Fault.out_of_fuel
  | fuel + 1, dev, sgl, nents, dir, attrs =>
    match hook_get_orig hook_list dev with
    | OpsRef.NULL => map_sg_fallback k sgl nents
    | OpsRef.mock_dma_ops => mock_map_sg k hook_list fuel dev sgl nents dir attrs
    | OpsRef.table id =>
      match (k.tables id).map_sg with
      | some f =>
        let r := f dev sgl nents dir attrs
        Except.ok (r.1, r.2, [Event.orig_map_sg id dev sgl nents dir attrs])
      | none => map_sg_fallback k sgl nents

/-- Source `mock_unmap_sg`; returns the trace of outside calls. -/
def mock_unmap_sg (k : Kernel) (hook_list : List mock_dev_hook) :
    Nat → Nat → List scatterlist → Int → dma_data_direction → Nat →
      Except Fault (List Event)
  | 0, _, _, _, _, _ => Except.error Fault.out_of_fuel
  | fuel + 1, dev, sgl, nents, dir, attrs =>
    match hook_get_orig hook_list dev with
    | OpsRef.NULL => Except.ok []
    | OpsRef.mock_dma_ops => mock_unmap_sg k hook_list fuel dev sgl nents dir attrs
    | OpsRef.table id =>
      if (k.tables id).unmap_sg then
        Except.ok [Event.orig_unmap_sg id dev sgl nents dir attrs]
      else Except.ok []

/-- The assignment `dev->dma_ops = ops` (also the kernel helper `set_dma_ops`). -/
def set_dma_ops (devs : Nat → device) (dev : Nat) (ops : OpsRef) : Nat → device :=
  fun d => if d = dev then { devs d with dma_ops := ops } else devs d

/-- Kernel helper `get_dma_ops`: the device's own `dma_ops`; the architecture
default it falls back to for a null member is itself null on the target. -/
def get_dma_ops (devs : Nat → device) (dev : Nat) : OpsRef :=
  (devs dev).dma_ops

/-- Source `mock_alloc`: swap in the registered original, call the generic
allocator, swap the wrapper table back in. -/
def mock_alloc (k : Kernel) (s : State) (dev size gfp attrs : Nat) : AllocOutcome × State :=
  let orig := hook_get_orig s.hook_list dev
  let devs1 := set_dma_ops s.devs dev orig
  let r := k.dma_alloc_attrs devs1 dev size gfp attrs
  let devs2 := set_dma_ops r.2 dev OpsRef.mock_dma_ops
  (r.1, { s with devs := devs2 })

/-- Source `mock_free`: the same bracketing around the generic free path. -/
def mock_free (k : Kernel) (s : State) (dev size cpu_addr dma_handle attrs : Nat) : State :=
  let orig := hook_get_orig s.hook_list dev
  let devs1 := set_dma_ops s.devs dev orig
  let devs2 := k.dma_free_attrs devs1 dev size cpu_addr dma_handle attrs
  { s with devs := set_dma_ops devs2 dev OpsRef.mock_dma_ops }

/-! ## C) IOMMU domain -/

/-- C `memcmp(s1, s2, strlen(s2)) == 0` on NUL-terminated strings given as
character lists: `s2` is an initial segment of `s1`. -/
def starts_with : List Char → List Char → Bool
  | _, [] => true
  | [], _ :: _ => false
  | a :: s1, b :: s2 => a = b && starts_with s1 s2

/-- C library `strstr`: the tail of `s1` at the first occurrence of `s2`,
`none` for the null result. -/
def strstr : List Char → List Char → Option (List Char)
  | [], s2 => if starts_with [] s2 then some [] else none
  | c :: s1, s2 => if starts_with (c :: s1) s2 then some (c :: s1) else strstr s1 s2

/-- The condition `dev_name(dev) && strstr(dev_name(dev), "xhci-hcd")`. -/
def name_matches (d : device) : Bool :=
  match d.name with
  | none => false
  | some n => (strstr n.toList "xhci-hcd".toList).isSome

/-- Source `mock_attach_dev`.  `kzalloc_ok` is the outcome of the entry
allocation inside `hook_install`; the return value of `hook_install` is
discarded, as in the source. -/
def mock_attach_dev (s : State) (kzalloc_ok : Bool) (_domain dev : Nat) : Int × State :=
  if name_matches (s.devs dev) then
    let orig := get_dma_ops s.devs dev
    let r := hook_install s.hook_list kzalloc_ok dev orig
    (0, { hook_list := r.2, devs := set_dma_ops s.devs dev OpsRef.mock_dma_ops })
  else
    (0, s)

/-- A run of `mock_attach_dev` calls, each given as the device attached and the
outcome of its entry allocation. -/
def attach_all (s : State) : List (Nat × Bool) → State
  | [] => s
  | (dev, ok) :: rest => attach_all (mock_attach_dev s ok 0 dev).2 rest

/-- What the fallback loop of `mock_map_sg` is required to do to one entry:
`e` is the entry afterwards, `e0` the entry before.  The device-visible address
is the physical address `page_to_phys(page) + offset` of the entry, taken in
the 64-bit address type (the exact sum when it fits) and equal to what
`sg_phys` gives; the mapped length is the buffer length; and the physical
address, buffer length, page and offset are as before. -/
def sg_identity_mapped (k : Kernel) (e e0 : scatterlist) : Prop :=
  e.dma_address = (k.page_to_phys e0.page + e0.offset) % 2 ^ 64 ∧
  (k.page_to_phys e0.page + e0.offset < 2 ^ 64 →
    e.dma_address = k.page_to_phys e0.page + e0.offset) ∧
  e.dma_address = sg_phys k e ∧ e.dma_length = e.length ∧
  sg_phys k e = sg_phys k e0 ∧ e.length = e0.length ∧
  e.page = e0.page ∧ e.offset = e0.offset

/-- The entry the claim expects after the fallback loop: `dma_address` is
`page_to_phys(page) + offset` in the 64-bit address type, `dma_length` is
`length`, the other members are kept. -/
def sg_expected (k : Kernel) (sg : scatterlist) : scatterlist :=
  { page := sg.page
    offset := sg.offset
    length := sg.length
    dma_address := (k.page_to_phys sg.page + sg.offset) % 2 ^ 64
    dma_length := sg.length }

/-- Registry property: no entry records `mock_dma_ops` as a device's original. -/
def no_self_hook (hook_list : List mock_dev_hook) : Prop :=
  ∀ h ∈ hook_list, h.orig ≠ OpsRef.mock_dma_ops

/-- Invariant kept by attaches whose entry allocation succeeds: the registry
has no self-referring entry, and every device that already runs on
`mock_dma_ops` has an entry. -/
def attach_inv (s : State) : Prop :=
  no_self_hook s.hook_list ∧
  ∀ d, get_dma_ops s.devs d = OpsRef.mock_dma_ops → hook_find_locked s.hook_list d ≠ none

/-! ## Concrete scenarios -/

/-- A kernel with 4 KiB pages whose table `7` implements both mapping
operations and whose generic allocator fails. -/
def sample_kernel : Kernel where
  page_to_phys := fun p => p * 4096
  tables := fun id =>
    if id = 7 then
      { map_page := some (fun _ page offset _ _ _ => 0x80000000 + page * 4096 + offset)
        unmap_page := true
        map_sg := some (fun _ sgl nents _ _ => (nents - 1, sgl))
        unmap_sg := true }
    else { map_page := none, unmap_page := false, map_sg := none, unmap_sg := false }
  dma_alloc_attrs := fun devs _ _ _ _ => ({ cpu_addr := 0, dma_handle := none }, devs)
  dma_free_attrs := fun devs _ _ _ _ _ => devs

/-- Two devices before any attach: device `1` is an xHCI controller using
table `7`, every other device is a UART without a table. -/
def sample_state : State where
  hook_list := []
  devs := fun d =>
    if d = 1 then { name := some "xhci-hcd.1.auto", dma_ops := OpsRef.table 7 }
    else { name := some "serial8250", dma_ops := OpsRef.NULL }

/-- A two-entry scatter list. -/
def sample_sgl : List scatterlist :=
  [{ page := 1, offset := 2, length := 3, dma_address := 0, dma_length := 0 },
   { page := 2, offset := 0, length := 8, dma_address := 0, dma_length := 0 }]

end MockIommu

namespace Dwc3Host

/-! ## Host glue: data model -/

/-- Errno value `EPROBE_DEFER`. -/
def EPROBE_DEFER : Int := 517

/-- Errno value `ENOMEM`. -/
def ENOMEM : Int := 12

/-- Resource type bit `IORESOURCE_IRQ`. -/
def IORESOURCE_IRQ : Nat := 0x400

/-- Modulus of `resource_size_t` (64 bits wide). -/
def RES_MOD : Int := 2 ^ 64

/-- The C `struct resource` members written by the glue. -/
structure resource where
  start : Nat
  end_ : Nat
  flags : Nat
  name : Option String
  deriving DecidableEq, Repr

/-- A device-tree node, reduced to what `of_node_full_name` returns for it. -/
structure device_node where
  full_name : String
  deriving DecidableEq, Repr

/-- The members of the child `struct platform_device` set by `dwc3_host_init`
right after allocation (`parent` is always `dwc->dev`). -/
structure platform_device where
  addr : Nat
  fwnode : Nat
  dma_mask : Nat
  coherent_dma_mask : Nat
  deriving DecidableEq, Repr

/-- The members of `struct dwc3` (and of `*dwc->dev`) used by the glue.
`xhci_resources_0` and `xhci_resources_1` are the two elements of the array
`xhci_resources`; `xhci` is the child pointer, `none` when null. -/
structure dwc3 where
  of_node : Option device_node
  fwnode : Nat
  dma_mask : Nat
  coherent_dma_mask : Nat
  xhci_resources_0 : resource
  xhci_resources_1 : resource
  usb3_lpm_capable : Bool
  xhci : Option Nat
  deriving DecidableEq, Repr

/-- Results of the platform-bus calls made during one `dwc3_host_init`:
the three interrupt lookups, `irq_get_trigger_type`, the pointer returned by
`platform_device_alloc` (`none` when null) and the `int` results of the
remaining steps. -/
structure Platform where
  irq_byname_host : Int
  irq_byname_dwc_usb3 : Int
  irq_index0 : Int
  irq_get_trigger_type : Int → Nat
  platform_device_alloc : Option Nat
  of_dma_configure : Int
  platform_device_add_resources : Int
  device_create_managed_software_node : Int
  platform_device_add_data : Int
  platform_device_add : Int

/-- Calls made by the glue, in program order.  The register accesses of
`dwc3_power_off_all_roothub_ports` are one event: the function returns nothing
and touches only the controller's registers. -/
inductive HostEvent where
  | power_off_all_roothub_ports
  | platform_get_irq_byname_optional (name : String)
  | platform_get_irq (index : Nat)
  | platform_device_alloc
  | of_dma_configure (child : platform_device)
  | platform_device_add_resources (child : Nat) (r0 r1 : resource)
  | device_create_managed_software_node (child : Nat) (props : List String)
  | platform_device_add_data (child : Nat)
  | platform_device_add (child : Nat)
  | platform_device_put (child : Nat)
  deriving DecidableEq, Repr

/-- What `dwc3_host_init` leaves behind: its return value, the controller
structure, the child structure if one was allocated, and the calls made. -/
structure HostResult where
  ret : Int
  dwc : dwc3
  child : Option platform_device
  trace : List HostEvent
  deriving DecidableEq, Repr

/-! ## Host glue: operations -/

/-- Source `dwc3_host_fill_xhci_irq_res`.  The `int` is converted to
`resource_size_t` on assignment; `np` is the parent device's `of_node`. -/
def dwc3_host_fill_xhci_irq_res (p : Platform) (dwc : dwc3) (irq : Int)
    (name : Option String) : dwc3 :=
  let np := dwc.of_node
  let v := (irq % RES_MOD).toNat
  { dwc with
    xhci_resources_1 :=
      { start := v
        end_ := v
        flags := IORESOURCE_IRQ ||| p.irq_get_trigger_type irq
        name :=
          match name, np with
          | none, some n => some n.full_name
          | _, _ => name } }

/-- Source `dwc3_host_get_irq`: return value, controller structure afterwards,
and the lookups made. -/
def dwc3_host_get_irq (p : Platform) (dwc : dwc3) : Int × dwc3 × List HostEvent :=
  let irq := p.irq_byname_host
  let t1 := [HostEvent.platform_get_irq_byname_optional "host"]
  if irq > 0 then
    (irq, dwc3_host_fill_xhci_irq_res p dwc irq (some "host"), t1)
  else if irq = -EPROBE_DEFER then
    (irq, dwc, t1)
  else
    let irq := p.irq_byname_dwc_usb3
    let t2 := t1 ++ [HostEvent.platform_get_irq_byname_optional "dwc_usb3"]
    if irq > 0 then
      (irq, dwc3_host_fill_xhci_irq_res p dwc irq (some "dwc_usb3"), t2)
    else if irq = -EPROBE_DEFER then
      (irq, dwc, t2)
    else
      let irq := p.irq_index0
      let t3 := t2 ++ [HostEvent.platform_get_irq 0]
      if irq > 0 then
        (irq, dwc3_host_fill_xhci_irq_res p dwc irq none, t3)
      else
        (irq, dwc, t3)

/-- The label `err:` of `dwc3_host_init`: put the child, clear `dwc->xhci`,
return `ret`. -/
def host_init_err (ret : Int) (dwc : dwc3) (child : platform_device)
    (trace : List HostEvent) : HostResult :=
  { ret := ret
    dwc := { dwc with xhci := none }
    child := some child
    trace := trace ++ [HostEvent.platform_device_put child.addr] }

/-- The property entries filled in by `dwc3_host_init`; `prop_idx` is the
length of this list. -/
def host_props (dwc : dwc3) : List String :=
  ["xhci-sg-trb-cache-size-quirk", "write-64-hi-lo-quirk"] ++
    (if dwc.usb3_lpm_capable then ["usb3-lpm-capable"] else [])

/-- The child structure after the assignments that follow
`platform_device_alloc` in `dwc3_host_init`: parent and firmware node, then the
two DMA masks copied from the parent. -/
def new_child (dwc : dwc3) (a : Nat) : platform_device :=
  { addr := a, fwnode := dwc.fwnode, dma_mask := dwc.dma_mask,
    coherent_dma_mask := dwc.coherent_dma_mask }

/-- Source `dwc3_host_init`. -/
def dwc3_host_init (p : Platform) (dwc : dwc3) : HostResult :=
  let t0 := [HostEvent.power_off_all_roothub_ports]
  let r := dwc3_host_get_irq p dwc
  let irq := r.1
  let dwc := r.2.1
  let t1 := t0 ++ r.2.2
  if irq < 0 then
    { ret := irq, dwc := dwc, child := none, trace := t1 }
  else
    let t2 := t1 ++ [HostEvent.platform_device_alloc]
    match p.platform_device_alloc with
    | none => { ret := -ENOMEM, dwc := dwc, child := none, trace := t2 }
    | some a =>
      let xhci := new_child dwc a
      let t3 := if dwc.of_node.isSome then t2 ++ [HostEvent.of_dma_configure xhci] else t2
      if dwc.of_node.isSome && p.of_dma_configure != 0 then
        host_init_err p.of_dma_configure dwc xhci t3
      else
        let dwc := { dwc with xhci := some a }
        let t4 := t3 ++ [HostEvent.platform_device_add_resources a
          dwc.xhci_resources_0 dwc.xhci_resources_1]
        if p.platform_device_add_resources != 0 then
          host_init_err p.platform_device_add_resources dwc xhci t4
        else
          let props := host_props dwc
          let prop_idx := props.length
          let t5 := if prop_idx != 0 then
            t4 ++ [HostEvent.device_create_managed_software_node a props] else t4
          if prop_idx != 0 && p.device_create_managed_software_node != 0 then
            host_init_err p.device_create_managed_software_node dwc xhci t5
          else
            let t6 := t5 ++ [HostEvent.platform_device_add_data a,
              HostEvent.platform_device_add a]
            if p.platform_device_add != 0 then
              host_init_err p.platform_device_add dwc xhci t6
            else
              { ret := 0, dwc := dwc, child := some xhci, trace := t6 }

/-! ## Host glue: vocabulary of the claims and a concrete scenario -/

/-- Range of the C type `int`. -/
def is_c_int (x : Int) : Prop := -(2 ^ 31) ≤ x ∧ x < 2 ^ 31

/-- The interrupt resource of `dwc` has `irq` as both `start` and `end`. -/
def irq_recorded (dwc : dwc3) (irq : Int) : Prop :=
  (dwc.xhci_resources_1.start : Int) = irq ∧ (dwc.xhci_resources_1.end_ : Int) = irq

/-- The calls `dwc3_host_init` makes after the allocation when its first `n` of
the four steps `platform_device_add_resources`,
`device_create_managed_software_node`, `platform_device_add_data`,
`platform_device_add` are reached: `of_dma_configure` first when the parent
has a node, then those `n` calls. -/
def host_steps (dwc : dwc3) (a : Nat) (xhci : platform_device) (n : Nat) : List HostEvent :=
  (if dwc.of_node.isSome then [HostEvent.of_dma_configure xhci] else []) ++
  ([HostEvent.platform_device_add_resources a dwc.xhci_resources_0 dwc.xhci_resources_1,
    HostEvent.device_create_managed_software_node a (host_props dwc),
    HostEvent.platform_device_add_data a,
    HostEvent.platform_device_add a].take n)

/-- Expected outcome of `dwc3_host_init` when, after the lookups left the
controller as `d1` with trace `t` and the child was allocated at `a`, the
step numbered `n` (`0` for `of_dma_configure`) fails with code `e`: the code
is returned, `dwc->xhci` is null, and the calls end with the failing step
followed by one `platform_device_put`. -/
def host_failed (d1 : dwc3) (t : List HostEvent) (a n : Nat) (e : Int) : HostResult :=
  { ret := e
    dwc := { d1 with xhci := none }
    child := some (new_child d1 a)
    trace := [HostEvent.power_off_all_roothub_ports] ++ t ++
      [HostEvent.platform_device_alloc] ++ host_steps d1 a (new_child d1 a) n ++
      [HostEvent.platform_device_put a] }

/-- Expected outcome of `dwc3_host_init` when no step fails: `0` is
returned, `dwc->xhci` is the child, all four steps were made and nothing was
put. -/
def host_succeeded (d1 : dwc3) (t : List HostEvent) (a : Nat) : HostResult :=
  { ret := 0
    dwc := { d1 with xhci := some a }
    child := some (new_child d1 a)
    trace := [HostEvent.power_off_all_roothub_ports] ++ t ++
      [HostEvent.platform_device_alloc] ++ host_steps d1 a (new_child d1 a) 4 }

/-- A controller with a device-tree node and an empty interrupt resource. -/
def sample_dwc : dwc3 where
  of_node := some { full_name := "/soc/usb@11200000" }
  fwnode := 5
  dma_mask := 0xffffffff
  coherent_dma_mask := 0xffffffff
  xhci_resources_0 := { start := 0x11200000, end_ := 0x11207fff, flags := 0x200, name := none }
  xhci_resources_1 := { start := 0, end_ := 0, flags := 0, name := none }
  usb3_lpm_capable := true
  xhci := none

/-- A platform where the `host` line is missing (`-ENXIO`), the `dwc_usb3`
line is interrupt `33`, the child is allocated at `77` and adding the
resources fails with `-ENOMEM`. -/
def sample_platform : Platform where
  irq_byname_host := -6
  irq_byname_dwc_usb3 := 33
  irq_index0 := 44
  irq_get_trigger_type := fun _ => 4
  platform_device_alloc := some 77
  of_dma_configure := 0
  platform_device_add_resources := -12
  device_create_managed_software_node := 0
  platform_device_add_data := 0
  platform_device_add := 0

end Dwc3Host

namespace MockIommu

/-! ## Registry lemmas -/

theorem hook_find_locked_append (l : List mock_dev_hook) (h : mock_dev_hook) (d : Nat) :
    hook_find_locked (l ++ [h]) d =
      match hook_find_locked l d with
      | some x => some x
      | none => if h.dev = d then some h else none := by
  induction l with
  | nil => simp [hook_find_locked]
  | cons a t ih =>
    by_cases ha : a.dev = d
    · simp [hook_find_locked, ha]
    · simp [hook_find_locked, ha, ih]

theorem entries_for_of_find_none (l : List mock_dev_hook) (d : Nat)
    (h : hook_find_locked l d = none) : entries_for l d = [] := by
  induction l with
  | nil => rfl
  | cons a t ih =>
    by_cases ha : a.dev = d
    · simp [hook_find_locked, ha] at h
    · simp only [hook_find_locked, ha, if_false] at h
      have := ih h
      simp [entries_for, ha] at this ⊢
      exact this

theorem entries_for_append (l : List mock_dev_hook) (h : mock_dev_hook) (d : Nat) :
    entries_for (l ++ [h]) d = entries_for l d ++ (if h.dev = d then [h] else []) := by
  by_cases hd : h.dev = d <;> simp [entries_for, List.filter_append, hd]

theorem hook_install_fresh (l : List mock_dev_hook) (d : Nat) (t : OpsRef)
    (h : hook_find_locked l d = none) :
    hook_install l true d t = (0, l ++ [{ dev := d, orig := t }]) := by
  simp [hook_install, h]

theorem hook_install_present (l : List mock_dev_hook) (d : Nat) (t : OpsRef) (x : mock_dev_hook)
    (h : hook_find_locked l d = some x) :
    hook_install l true d t = (0, l) := by
  simp [hook_install, h]

/-! ## Claims about the hook registry and the DMA-ops wrapper -/

theorem entries_for_of_find_some (l : List mock_dev_hook) (d : Nat) (x : mock_dev_hook)
    (h : hook_find_locked l d = some x) : 1 ≤ (entries_for l d).length := by
  induction l with
  | nil => simp [hook_find_locked] at h
  | cons a t ih =>
    by_cases ha : a.dev = d
    · simp [entries_for, ha]
    · simp only [hook_find_locked, ha, if_false] at h
      have := ih h
      simp [entries_for, ha] at this ⊢
      exact this

theorem hook_install_ret (l : List mock_dev_hook) (d : Nat) (t : OpsRef) :
    (hook_install l true d t).1 = 0 := by
  cases h : hook_find_locked l d <;> simp [hook_install, h]

theorem hook_install_at_most_one (l : List mock_dev_hook) (ok : Bool) (D : Nat) (t : OpsRef)
    (huniq : ∀ d, (entries_for l d).length ≤ 1) :
    ∀ d, (entries_for (hook_install l ok D t).2 d).length ≤ 1 := by
  intro d
  cases ok with
  | false => simpa [hook_install] using huniq d
  | true =>
    cases hf : hook_find_locked l D with
    | some x => rw [hook_install_present l D t x hf]; exact huniq d
    | none =>
      rw [hook_install_fresh l D t hf, entries_for_append]
      by_cases hd : D = d
      · subst hd
        simp [entries_for_of_find_none l D hf]
      · simpa [hd] using huniq d

/-- C1: for every registry, device `D` and tables `T1 ≠ T2`, two successive
`hook_install` calls whose allocations succeed both return `0` and keep the
registry at no more than one entry per device if it was so before.  When `D`
had no entry before the first call, they leave exactly one entry for `D`,
that entry holds `T1`, `hook_get_orig D` is `T1` (and not `T2`), and the
entries of every other device are as before. -/
theorem hook_install_first_writer_wins (hook_list : List mock_dev_hook) (D : Nat)
    (T1 T2 : OpsRef) (hne : T1 ≠ T2) :
    (hook_install hook_list true D T1).1 = 0 ∧
    (hook_install (hook_install hook_list true D T1).2 true D T2).1 = 0 ∧
    ((∀ d, (entries_for hook_list d).length ≤ 1) →
      ∀ d, (entries_for
        (hook_install (hook_install hook_list true D T1).2 true D T2).2 d).length ≤ 1) ∧
    (hook_find_locked hook_list D = none →
      entries_for (hook_install (hook_install hook_list true D T1).2 true D T2).2 D
        = [{ dev := D, orig := T1 }] ∧
      hook_get_orig (hook_install (hook_install hook_list true D T1).2 true D T2).2 D = T1 ∧
      hook_get_orig (hook_install (hook_install hook_list true D T1).2 true D T2).2 D ≠ T2 ∧
      ∀ d, d ≠ D →
        entries_for (hook_install (hook_install hook_list true D T1).2 true D T2).2 d
          = entries_for hook_list d) := by
  refine ⟨hook_install_ret _ _ _, hook_install_ret _ _ _, ?_, ?_⟩
  · intro huniq
    exact hook_install_at_most_one _ _ _ _ (hook_install_at_most_one _ _ _ _ huniq)
  · intro hfresh
    have h1 := hook_install_fresh hook_list D T1 hfresh
    have hfind : hook_find_locked (hook_list ++ [{ dev := D, orig := T1 }]) D
        = some { dev := D, orig := T1 } := by
      rw [hook_find_locked_append, hfresh]; simp
    have h2 := hook_install_present (hook_list ++ [{ dev := D, orig := T1 }]) D T2 _ hfind
    rw [h1]
    simp only [h2]
    have hget : hook_get_orig (hook_list ++ [{ dev := D, orig := T1 }]) D = T1 := by
      simp [hook_get_orig, hfind]
    refine ⟨?_, hget, ?_, ?_⟩
    · rw [entries_for_append, entries_for_of_find_none _ _ hfresh]; simp
    · rw [hget]; exact hne
    · intro d hd
      rw [entries_for_append]
      have : ¬ D = d := fun e => hd e.symm
      simp [this]

/-- C1 at a registry holding another device: device `1` is installed twice. -/
theorem hook_install_first_writer_wins_witness :
    OpsRef.table 7 ≠ OpsRef.table 8 ∧
    hook_find_locked [{ dev := 2, orig := OpsRef.table 3 }] 1 = none ∧
    entries_for (hook_install (hook_install [{ dev := 2, orig := OpsRef.table 3 }]
      true 1 (OpsRef.table 7)).2 true 1 (OpsRef.table 8)).2 1
        = [{ dev := 1, orig := OpsRef.table 7 }] ∧
    hook_get_orig (hook_install (hook_install [{ dev := 2, orig := OpsRef.table 3 }]
      true 1 (OpsRef.table 7)).2 true 1 (OpsRef.table 8)).2 1 = OpsRef.table 7 :=
  have h := (hook_install_first_writer_wins [{ dev := 2, orig := OpsRef.table 3 }] 1
    (OpsRef.table 7) (OpsRef.table 8) (by decide)).2.2.2 (by decide)
  ⟨by decide, by decide, h.1, h.2.1⟩

/-- C2: when `hook_get_orig` is null, `mock_map_page` returns
`page_to_phys(page) + offset` as computed in `phys_addr_t`, which is the exact
sum when that fits the type; the value is the same for every size, direction
and attribute word, which only decide whether the cache sync is issued. -/
theorem mock_map_page_identity (k : Kernel) (hook_list : List mock_dev_hook)
    (fuel dev page offset : Nat) (hnull : hook_get_orig hook_list dev = OpsRef.NULL) :
    (∀ size dir attrs,
      mock_map_page k hook_list (fuel + 1) dev page offset size dir attrs =
        Except.ok ((k.page_to_phys page + offset) % 2 ^ 64,
          if attrs &&& DMA_ATTR_SKIP_CPU_SYNC = 0 then
            [Event.arch_sync_dma_for_device ((k.page_to_phys page + offset) % 2 ^ 64) size dir]
          else [])) ∧
    (k.page_to_phys page + offset < 2 ^ 64 →
      ∀ size dir attrs, ∃ tr,
        mock_map_page k hook_list (fuel + 1) dev page offset size dir attrs =
          Except.ok (k.page_to_phys page + offset, tr)) := by
  have main : ∀ size dir attrs,
      mock_map_page k hook_list (fuel + 1) dev page offset size dir attrs =
        Except.ok ((k.page_to_phys page + offset) % 2 ^ 64,
          if attrs &&& DMA_ATTR_SKIP_CPU_SYNC = 0 then
            [Event.arch_sync_dma_for_device ((k.page_to_phys page + offset) % 2 ^ 64) size dir]
          else []) := by
    intro size dir attrs
    simp only [mock_map_page, hnull, map_page_fallback, phys_of, ADDR_MOD, Nat.mod_mod]
  refine ⟨main, ?_⟩
  intro hfit size dir attrs
  rw [main size dir attrs, Nat.mod_eq_of_lt hfit]
  exact ⟨_, rfl⟩

/-- C2 on the empty registry: page `3`, offset `5` maps to `3 * 4096 + 5`. -/
theorem mock_map_page_identity_witness :
    hook_get_orig [] 1 = OpsRef.NULL ∧
    mock_map_page sample_kernel [] 1 1 3 5 4096 dma_data_direction.DMA_BIDIRECTIONAL 0 =
      Except.ok ((sample_kernel.page_to_phys 3 + 5) % 2 ^ 64,
        if 0 &&& DMA_ATTR_SKIP_CPU_SYNC = 0 then
          [Event.arch_sync_dma_for_device ((sample_kernel.page_to_phys 3 + 5) % 2 ^ 64) 4096
            dma_data_direction.DMA_BIDIRECTIONAL]
        else []) :=
  ⟨by decide,
    (mock_map_page_identity sample_kernel [] 0 1 3 5 (by decide)).1 4096
      dma_data_direction.DMA_BIDIRECTIONAL 0⟩

/-- C3: when the registry holds a table for the device and that table has the
operation, `mock_map_page` and `mock_map_sg` return exactly what the
original's operation returns on the same arguments; the trace is the single
call of the original (no cache sync), and the scatter list afterwards is the
one the original left.  When the registered table is `mock_dma_ops` itself the
outcome is that of the wrapper invoked one level deeper. -/
theorem mock_map_delegates (k : Kernel) (hook_list : List mock_dev_hook) (fuel dev : Nat)
    (orig : OpsRef) (hreg : hook_get_orig hook_list dev = orig) :
    (∀ id f, orig = OpsRef.table id → (k.tables id).map_page = some f →
      ∀ page offset size dir attrs,
        mock_map_page k hook_list (fuel + 1) dev page offset size dir attrs =
          Except.ok (f dev page offset size dir attrs,
            [Event.orig_map_page id dev page offset size dir attrs])) ∧
    (∀ id g, orig = OpsRef.table id → (k.tables id).map_sg = some g →
      ∀ sgl nents dir attrs,
        mock_map_sg k hook_list (fuel + 1) dev sgl nents dir attrs =
          Except.ok ((g dev sgl nents dir attrs).1, (g dev sgl nents dir attrs).2,
            [Event.orig_map_sg id dev sgl nents dir attrs])) ∧
    (orig = OpsRef.mock_dma_ops →
      (∀ page offset size dir attrs,
        mock_map_page k hook_list (fuel + 1) dev page offset size dir attrs =
          mock_map_page k hook_list fuel dev page offset size dir attrs) ∧
      (∀ sgl nents dir attrs,
        mock_map_sg k hook_list (fuel + 1) dev sgl nents dir attrs =
          mock_map_sg k hook_list fuel dev sgl nents dir attrs)) := by
  refine ⟨?_, ?_, ?_⟩
  · intro id f ho hf page offset size dir attrs
    rw [ho] at hreg
    simp only [mock_map_page, hreg, hf]
  · intro id g ho hg sgl nents dir attrs
    rw [ho] at hreg
    simp only [mock_map_sg, hreg, hg]
  · intro ho
    rw [ho] at hreg
    constructor
    · intro page offset size dir attrs
      simp only [mock_map_page, hreg]
    · intro sgl nents dir attrs
      simp only [mock_map_sg, hreg]

/-- C3 for device `1` registered with table `7` of the sample kernel. -/
theorem mock_map_delegates_witness :
    hook_get_orig [{ dev := 1, orig := OpsRef.table 7 }] 1 = OpsRef.table 7 ∧
    mock_map_page sample_kernel [{ dev := 1, orig := OpsRef.table 7 }] 1 1 3 5 4096
        dma_data_direction.DMA_TO_DEVICE 0 =
      Except.ok (0x80000000 + 3 * 4096 + 5,
        [Event.orig_map_page 7 1 3 5 4096 dma_data_direction.DMA_TO_DEVICE 0]) :=
  ⟨by decide,
    (mock_map_delegates sample_kernel [{ dev := 1, orig := OpsRef.table 7 }] 0 1
      (OpsRef.table 7) (by decide)).1 7 _ rfl rfl 3 5 4096 dma_data_direction.DMA_TO_DEVICE 0⟩

theorem map_sg_loop_full (k : Kernel) (sgl : List scatterlist) :
    map_sg_loop k sgl.length sgl = Except.ok (sgl.map (sg_expected k)) := by
  induction sgl with
  | nil => rfl
  | cons sg rest ih =>
    simp only [List.length_cons, map_sg_loop, ih, List.map_cons, sg_expected, sg_phys, ADDR_MOD]

theorem sg_expected_mapped (k : Kernel) (sgl : List scatterlist) :
    List.Forall₂ (sg_identity_mapped k) (sgl.map (sg_expected k)) sgl := by
  induction sgl with
  | nil => exact List.Forall₂.nil
  | cons sg rest ih =>
    refine List.Forall₂.cons ?_ ih
    refine ⟨rfl, ?_, ?_, rfl, rfl, rfl, rfl, rfl⟩
    · intro hfit
      simp only [sg_expected, Nat.mod_eq_of_lt hfit]
    · simp only [sg_expected, sg_phys, ADDR_MOD]

/-- C4: when `hook_get_orig` is null, `mock_map_sg` called on a scatter list
with its own length `N` as count returns `N`, makes no outside call, and
leaves the list in which every entry has `dma_address` equal to
`(page_to_phys(page) + offset) mod 2^64` of that entry (the exact sum when it
fits, and the value of `sg_phys`) and `dma_length` equal to its `length`,
with page, offset, length and hence physical address as before. -/
theorem mock_map_sg_identity (k : Kernel) (hook_list : List mock_dev_hook) (fuel dev : Nat)
    (sgl : List scatterlist) (dir : dma_data_direction) (attrs : Nat)
    (hnull : hook_get_orig hook_list dev = OpsRef.NULL) :
    mock_map_sg k hook_list (fuel + 1) dev sgl (sgl.length : Int) dir attrs =
      Except.ok ((sgl.length : Int),
        sgl.map (fun sg =>
          { page := sg.page, offset := sg.offset, length := sg.length,
            dma_address := (k.page_to_phys sg.page + sg.offset) % 2 ^ 64,
            dma_length := sg.length }), []) ∧
    ∃ out,
      mock_map_sg k hook_list (fuel + 1) dev sgl (sgl.length : Int) dir attrs =
        Except.ok ((sgl.length : Int), out, []) ∧
      out.length = sgl.length ∧
      List.Forall₂ (sg_identity_mapped k) out sgl := by
  have hrun : mock_map_sg k hook_list (fuel + 1) dev sgl (sgl.length : Int) dir attrs =
      Except.ok ((sgl.length : Int), sgl.map (sg_expected k), []) := by
    simp only [mock_map_sg, hnull, map_sg_fallback, Int.toNat_ofNat, map_sg_loop_full]
  exact ⟨hrun, sgl.map (sg_expected k), hrun, List.length_map _ _, sg_expected_mapped k sgl⟩

/-- C4 on the two-entry sample list with 4 KiB pages: the entry at page `1`,
offset `2` gets address `4098`, the entry at page `2`, offset `0` gets
`8192`, the lengths `3` and `8` are copied, and `2` is returned. -/
theorem mock_map_sg_identity_witness :
    hook_get_orig [] 1 = OpsRef.NULL ∧
    mock_map_sg sample_kernel [] 1 1
        [{ page := 1, offset := 2, length := 3, dma_address := 0, dma_length := 0 },
         { page := 2, offset := 0, length := 8, dma_address := 0, dma_length := 0 }]
        2 dma_data_direction.DMA_FROM_DEVICE 0 =
      Except.ok (2,
        [{ page := 1, offset := 2, length := 3, dma_address := 4098, dma_length := 3 },
         { page := 2, offset := 0, length := 8, dma_address := 8192, dma_length := 8 }], []) :=
  ⟨by decide,
    (mock_map_sg_identity sample_kernel [] 0 1 sample_sgl dma_data_direction.DMA_FROM_DEVICE 0
      (by decide)).1⟩

/-! ## Claims about coherent allocation and attach -/

theorem get_set_dma_ops (devs : Nat → device) (dev : Nat) (ops : OpsRef) :
    get_dma_ops (set_dma_ops devs dev ops) dev = ops := by
  simp [get_dma_ops, set_dma_ops]

theorem set_dma_ops_other (devs : Nat → device) (dev d : Nat) (ops : OpsRef) (h : d ≠ dev) :
    set_dma_ops devs dev ops d = devs d := by
  simp [set_dma_ops, h]

/-- C5: for a device whose active table is `mock_dma_ops`, whatever the generic
allocator and the generic free path return or do to the device structures,
`mock_alloc` returns what the generic allocator returned when run with the
device's table set to the registered original, and after `mock_alloc` and
after a following `mock_free` with any pointer and handle the device's active
table is `mock_dma_ops`, the same as before the calls, and `hook_list` is the
list from before both calls. -/
theorem mock_alloc_free_keep_wrapper (k : Kernel) (s : State) (dev size gfp attrs : Nat)
    (hact : get_dma_ops s.devs dev = OpsRef.mock_dma_ops) :
    (mock_alloc k s dev size gfp attrs).1 =
      (k.dma_alloc_attrs (set_dma_ops s.devs dev (hook_get_orig s.hook_list dev))
        dev size gfp attrs).1 ∧
    get_dma_ops (mock_alloc k s dev size gfp attrs).2.devs dev = OpsRef.mock_dma_ops ∧
    get_dma_ops (mock_alloc k s dev size gfp attrs).2.devs dev = get_dma_ops s.devs dev ∧
    (mock_alloc k s dev size gfp attrs).2.hook_list = s.hook_list ∧
    ∀ cpu_addr dma_handle,
      get_dma_ops (mock_free k (mock_alloc k s dev size gfp attrs).2 dev size cpu_addr
        dma_handle attrs).devs dev = OpsRef.mock_dma_ops ∧
      get_dma_ops (mock_free k (mock_alloc k s dev size gfp attrs).2 dev size cpu_addr
        dma_handle attrs).devs dev = get_dma_ops s.devs dev ∧
      (mock_free k (mock_alloc k s dev size gfp attrs).2 dev size cpu_addr
        dma_handle attrs).hook_list = s.hook_list := by
  have ha : get_dma_ops (mock_alloc k s dev size gfp attrs).2.devs dev
      = OpsRef.mock_dma_ops := by
    simp only [mock_alloc]; exact get_set_dma_ops _ _ _
  have hf : ∀ s1 cpu_addr dma_handle,
      get_dma_ops (mock_free k s1 dev size cpu_addr dma_handle attrs).devs dev
        = OpsRef.mock_dma_ops := by
    intro s1 cpu_addr dma_handle
    simp only [mock_free]; exact get_set_dma_ops _ _ _
  refine ⟨rfl, ha, by rw [ha, hact], rfl, ?_⟩
  intro cpu_addr dma_handle
  exact ⟨hf _ _ _, by rw [hf, hact], rfl⟩

/-- C5 on the sample state after device `1` was attached; the sample
allocator fails. -/
theorem mock_alloc_free_keep_wrapper_witness :
    get_dma_ops (mock_attach_dev sample_state true 0 1).2.devs 1 = OpsRef.mock_dma_ops ∧
    get_dma_ops (mock_alloc sample_kernel (mock_attach_dev sample_state true 0 1).2
      1 4096 0 0).2.devs 1 = OpsRef.mock_dma_ops :=
  ⟨by decide,
    (mock_alloc_free_keep_wrapper sample_kernel (mock_attach_dev sample_state true 0 1).2
      1 4096 0 0 (by decide)).2.1⟩

theorem starts_with_iff (s1 s2 : List Char) : starts_with s1 s2 = true ↔ s2 <+: s1 := by
  induction s1 generalizing s2 with
  | nil =>
    cases s2 with
    | nil => simp [starts_with]
    | cons b t => simp [starts_with]
  | cons a t ih =>
    cases s2 with
    | nil => simp [starts_with]
    | cons b u =>
      simp only [starts_with, Bool.and_eq_true, decide_eq_true_eq, ih, List.cons_prefix_cons]
      constructor
      · rintro ⟨h1, h2⟩; exact ⟨h1.symm, h2⟩
      · rintro ⟨h1, h2⟩; exact ⟨h1.symm, h2⟩

theorem strstr_isSome_iff (s1 s2 : List Char) : (strstr s1 s2).isSome = true ↔ s2 <:+: s1 := by
  induction s1 with
  | nil =>
    cases h : starts_with [] s2 with
    | true =>
      have h2 := (starts_with_iff [] s2).1 h
      simp only [strstr, h, if_true, Option.isSome_some, true_iff]
      exact h2.isInfix
    | false =>
      have h2 : ¬ s2 <+: [] := fun e => by
        rw [(starts_with_iff [] s2).2 e] at h; exact Bool.noConfusion h
      simp only [strstr, h, Bool.false_eq_true, if_false, Option.isSome_none, false_iff]
      intro hin
      exact h2 (by rw [List.infix_nil] at hin; rw [hin])
  | cons c t ih =>
    cases h : starts_with (c :: t) s2 with
    | true =>
      have h2 := (starts_with_iff (c :: t) s2).1 h
      simp only [strstr, h, if_true, Option.isSome_some, true_iff]
      exact h2.isInfix
    | false =>
      have h2 : ¬ s2 <+: c :: t := fun e => by
        rw [(starts_with_iff (c :: t) s2).2 e] at h; exact Bool.noConfusion h
      simp only [strstr, h, Bool.false_eq_true, if_false, ih, List.infix_cons_iff, h2, false_or]

theorem name_matches_iff (d : device) :
    name_matches d = true ↔ ∃ n, d.name = some n ∧ "xhci-hcd".toList <:+: n.toList := by
  cases hn : d.name with
  | none => simp [name_matches, hn]
  | some n => simp [name_matches, hn, strstr_isSome_iff]

/-- C6: for a device whose name is absent or does not contain `xhci-hcd`,
`mock_attach_dev` returns `0` and the state afterwards (registry and every
device's table) is the state before, for every domain and every outcome of
the entry allocation. -/
theorem mock_attach_dev_other_device (s : State) (kzalloc_ok : Bool) (domain dev : Nat)
    (hname : ∀ n, (s.devs dev).name = some n → ¬ "xhci-hcd".toList <:+: n.toList) :
    mock_attach_dev s kzalloc_ok domain dev = (0, s) := by
  have hm : name_matches (s.devs dev) = false := by
    cases hb : name_matches (s.devs dev) with
    | false => rfl
    | true =>
      obtain ⟨n, hn, hin⟩ := (name_matches_iff _).1 hb
      exact absurd hin (hname n hn)
  simp [mock_attach_dev, hm]

/-- C6 for the UART device `2` of the sample state. -/
theorem mock_attach_dev_other_device_witness :
    (∀ n, (sample_state.devs 2).name = some n → ¬ "xhci-hcd".toList <:+: n.toList) ∧
    mock_attach_dev sample_state true 9 2 = (0, sample_state) :=
  have h : ∀ n, (sample_state.devs 2).name = some n → ¬ "xhci-hcd".toList <:+: n.toList := by
    intro n hn
    have hn2 : n = "serial8250" := by
      have : (sample_state.devs 2).name = some "serial8250" := rfl
      rw [this] at hn
      exact (Option.some.inj hn).symm
    subst hn2
    decide
  ⟨h, mock_attach_dev_other_device sample_state true 9 2 h⟩

/-- C7: for a device whose name contains `xhci-hcd`, that has no registry
entry and whose active table is `T`, `mock_attach_dev` with a successful entry
allocation returns `0`; afterwards `hook_get_orig` gives `T`, the device's
active table is `mock_dma_ops`, the registry is the old one with the entry
`(dev, T)` appended, so lookups for other devices give what they gave before,
and other devices' structures are untouched. -/
theorem mock_attach_dev_hooks_xhci (s : State) (domain dev : Nat) (T : OpsRef)
    (hname : ∃ n, (s.devs dev).name = some n ∧ "xhci-hcd".toList <:+: n.toList)
    (hfresh : hook_find_locked s.hook_list dev = none)
    (hT : get_dma_ops s.devs dev = T) :
    (mock_attach_dev s true domain dev).1 = 0 ∧
    hook_get_orig (mock_attach_dev s true domain dev).2.hook_list dev = T ∧
    get_dma_ops (mock_attach_dev s true domain dev).2.devs dev = OpsRef.mock_dma_ops ∧
    (mock_attach_dev s true domain dev).2.hook_list
      = s.hook_list ++ [{ dev := dev, orig := T }] ∧
    (∀ d, d ≠ dev →
      hook_find_locked (mock_attach_dev s true domain dev).2.hook_list d
        = hook_find_locked s.hook_list d) ∧
    (∀ d, d ≠ dev → (mock_attach_dev s true domain dev).2.devs d = s.devs d) := by
  have hm : name_matches (s.devs dev) = true := (name_matches_iff _).2 hname
  have hrun : mock_attach_dev s true domain dev =
      (0, { hook_list := s.hook_list ++ [{ dev := dev, orig := T }],
            devs := set_dma_ops s.devs dev OpsRef.mock_dma_ops }) := by
    simp only [mock_attach_dev, hm, if_true, hT, hook_install_fresh _ _ _ hfresh]
  rw [hrun]
  refine ⟨rfl, ?_, get_set_dma_ops _ _ _, rfl, ?_, ?_⟩
  · simp [hook_get_orig, hook_find_locked_append, hfresh]
  · intro d hd
    have hd2 : ¬ dev = d := fun e => hd e.symm
    simp only [hook_find_locked_append, hd2, if_false]
    cases hook_find_locked s.hook_list d <;> rfl
  · intro d hd
    exact set_dma_ops_other _ _ _ _ hd

/-- C7 for the xHCI device `1` of the sample state, whose table is `7`. -/
theorem mock_attach_dev_hooks_xhci_witness :
    (∃ n, (sample_state.devs 1).name = some n ∧ "xhci-hcd".toList <:+: n.toList) ∧
    hook_find_locked sample_state.hook_list 1 = none ∧
    get_dma_ops sample_state.devs 1 = OpsRef.table 7 ∧
    hook_get_orig (mock_attach_dev sample_state true 0 1).2.hook_list 1 = OpsRef.table 7 :=
  ⟨⟨"xhci-hcd.1.auto", rfl, by decide⟩, by decide, by decide,
    (mock_attach_dev_hooks_xhci sample_state 0 1 (OpsRef.table 7)
      ⟨"xhci-hcd.1.auto", rfl, by decide⟩ (by decide) (by decide)).2.1⟩

/-! ## Repeated attaches -/

theorem mock_attach_dev_keeps_inv (s : State) (domain dev : Nat) (hinv : attach_inv s) :
    attach_inv (mock_attach_dev s true domain dev).2 := by
  obtain ⟨hself, hcov⟩ := hinv
  cases hm : name_matches (s.devs dev) with
  | false => simpa [mock_attach_dev, hm] using And.intro hself hcov
  | true =>
    cases hf : hook_find_locked s.hook_list dev with
    | some x =>
      have hrun : (mock_attach_dev s true domain dev).2 =
          { hook_list := s.hook_list, devs := set_dma_ops s.devs dev OpsRef.mock_dma_ops } := by
        simp only [mock_attach_dev, hm, if_true, hook_install_present _ _ _ x hf]
      rw [hrun]
      refine ⟨hself, ?_⟩
      intro d hd
      by_cases hdd : d = dev
      · subst hdd; simp [hf]
      · apply hcov
        simpa [get_dma_ops, set_dma_ops, hdd] using hd
    | none =>
      have hrun : (mock_attach_dev s true domain dev).2 =
          { hook_list := s.hook_list ++ [{ dev := dev, orig := get_dma_ops s.devs dev }],
            devs := set_dma_ops s.devs dev OpsRef.mock_dma_ops } := by
        simp only [mock_attach_dev, hm, if_true, hook_install_fresh _ _ _ hf]
      rw [hrun]
      have horig : get_dma_ops s.devs dev ≠ OpsRef.mock_dma_ops := fun e => hcov dev e hf
      refine ⟨?_, ?_⟩
      · intro h hmem
        rcases List.mem_append.1 hmem with h1 | h1
        · exact hself h h1
        · rw [List.mem_singleton] at h1
          rw [h1]; exact horig
      · intro d hd
        by_cases hdd : d = dev
        · subst hdd
          simp [hook_find_locked_append, hf]
        · have hold : hook_find_locked s.hook_list d ≠ none := by
            apply hcov
            simpa [get_dma_ops, set_dma_ops, hdd] using hd
          simp only [hook_find_locked_append]
          cases hfd : hook_find_locked s.hook_list d with
          | none => exact absurd hfd hold
          | some y => simp

/-- When every entry allocation succeeds, a run of attaches from an empty
registry and devices not yet on `mock_dma_ops` never records `mock_dma_ops`
as an original. -/
theorem attach_all_ok_no_self_hook (s : State) (calls : List (Nat × Bool))
    (hempty : s.hook_list = [])
    (hdev : ∀ d, get_dma_ops s.devs d ≠ OpsRef.mock_dma_ops)
    (hok : ∀ c ∈ calls, c.2 = true) :
    no_self_hook (attach_all s calls).hook_list := by
  have gen : ∀ (calls : List (Nat × Bool)) (s : State), attach_inv s →
      (∀ c ∈ calls, c.2 = true) → attach_inv (attach_all s calls) := by
    intro calls
    induction calls with
    | nil => intro s hs _; exact hs
    | cons c rest ih =>
      intro s hs hall
      obtain ⟨dev, ok⟩ := c
      have hc : ok = true := hall (dev, ok) (List.mem_cons_self _ _)
      subst hc
      exact ih _ (mock_attach_dev_keeps_inv s 0 dev hs)
        (fun c hc => hall c (List.mem_cons_of_mem _ hc))
  have h0 : attach_inv s := by
    refine ⟨?_, fun d hd => absurd hd (hdev d)⟩
    intro h hmem
    rw [hempty] at hmem
    exact absurd hmem (List.not_mem_nil h)
  exact (gen calls s h0 hok).1

theorem mock_map_page_self_hook_diverges (k : Kernel) (hook_list : List mock_dev_hook)
    (dev : Nat) (hself : hook_get_orig hook_list dev = OpsRef.mock_dma_ops)
    (fuel page offset size : Nat) (dir : dma_data_direction) (attrs : Nat) :
    mock_map_page k hook_list fuel dev page offset size dir attrs
      = Except.error Fault.out_of_fuel := by
  induction fuel with
  | zero => rfl
  | succ n ih => simpa only [mock_map_page, hself] using ih

/-- C10 (defect in the code): from the empty registry of the sample state,
where no device runs on `mock_dma_ops`, attaching the xHCI device `1` once
with a failing entry allocation and once more with a successful one leaves
the entry `(1, mock_dma_ops)`: `mock_attach_dev` discards the `-ENOMEM` of
`hook_install` and substitutes the table anyway, so the second attach
captures `mock_dma_ops` as the original.  `mock_map_page` for that device
then re-enters itself at every call depth. -/
theorem attach_after_failed_install_hooks_wrapper :
    sample_state.hook_list = [] ∧
    (∀ d, get_dma_ops sample_state.devs d ≠ OpsRef.mock_dma_ops) ∧
    (hook_install sample_state.hook_list false 1 (get_dma_ops sample_state.devs 1)).1
      = -ENOMEM ∧
    (mock_attach_dev sample_state false 0 1).1 = 0 ∧
    (attach_all sample_state [(1, false), (1, true)]).hook_list
      = [{ dev := 1, orig := OpsRef.mock_dma_ops }] ∧
    ¬ no_self_hook (attach_all sample_state [(1, false), (1, true)]).hook_list ∧
    ∀ fuel page offset size dir attrs,
      mock_map_page sample_kernel (attach_all sample_state [(1, false), (1, true)]).hook_list
        fuel 1 page offset size dir attrs = Except.error Fault.out_of_fuel := by
  have hl : (attach_all sample_state [(1, false), (1, true)]).hook_list
      = [{ dev := 1, orig := OpsRef.mock_dma_ops }] := by decide
  refine ⟨rfl, ?_, by decide, by decide, hl, ?_, ?_⟩
  · intro d
    by_cases hd : d = 1 <;> simp [get_dma_ops, sample_state, hd]
  · intro h
    rw [hl] at h
    exact h _ (List.mem_singleton.2 rfl) rfl
  · intro fuel page offset size dir attrs
    apply mock_map_page_self_hook_diverges
    rw [hl]; decide

end MockIommu

namespace Dwc3Host

/-! ## Claims about the host glue -/

theorem fill_records_irq (p : Platform) (dwc : dwc3) (irq : Int) (name : Option String)
    (hpos : 0 < irq) (hint : is_c_int irq) :
    irq_recorded (dwc3_host_fill_xhci_irq_res p dwc irq name) irq := by
  obtain ⟨_, hhi⟩ := hint
  have hmod : irq % RES_MOD = irq := by
    apply Int.emod_eq_of_lt (le_of_lt hpos)
    unfold RES_MOD
    omega
  simp only [irq_recorded, dwc3_host_fill_xhci_irq_res, hmod]
  have : ((irq.toNat : Nat) : Int) = irq := Int.toNat_of_nonneg (le_of_lt hpos)
  exact ⟨this, this⟩

theorem defer_negative : -EPROBE_DEFER < 0 := by decide

/-- C8: the three lookups are tried in the order `host`, `dwc_usb3`, index
`0`.  A positive result of the lookup reached is returned and recorded as
`start` and `end` of the interrupt resource, and no later lookup is made.
When a named lookup that is reached gives `-EPROBE_DEFER`, that code is
returned with no later lookup and the controller structure untouched, and
`dwc3_host_init` returns the same code having made only the port power-off
and those lookups: no child is allocated. -/
theorem dwc3_host_get_irq_order (p : Platform) (dwc : dwc3)
    (h1 : is_c_int p.irq_byname_host) (h2 : is_c_int p.irq_byname_dwc_usb3)
    (h3 : is_c_int p.irq_index0) :
    (0 < p.irq_byname_host →
      (dwc3_host_get_irq p dwc).1 = p.irq_byname_host ∧
      (dwc3_host_get_irq p dwc).2.2 = [HostEvent.platform_get_irq_byname_optional "host"] ∧
      irq_recorded (dwc3_host_get_irq p dwc).2.1 p.irq_byname_host) ∧
    (¬ 0 < p.irq_byname_host → p.irq_byname_host ≠ -EPROBE_DEFER →
      0 < p.irq_byname_dwc_usb3 →
      (dwc3_host_get_irq p dwc).1 = p.irq_byname_dwc_usb3 ∧
      (dwc3_host_get_irq p dwc).2.2 = [HostEvent.platform_get_irq_byname_optional "host",
        HostEvent.platform_get_irq_byname_optional "dwc_usb3"] ∧
      irq_recorded (dwc3_host_get_irq p dwc).2.1 p.irq_byname_dwc_usb3) ∧
    (¬ 0 < p.irq_byname_host → p.irq_byname_host ≠ -EPROBE_DEFER →
      ¬ 0 < p.irq_byname_dwc_usb3 → p.irq_byname_dwc_usb3 ≠ -EPROBE_DEFER →
      0 < p.irq_index0 →
      (dwc3_host_get_irq p dwc).1 = p.irq_index0 ∧
      (dwc3_host_get_irq p dwc).2.2 = [HostEvent.platform_get_irq_byname_optional "host",
        HostEvent.platform_get_irq_byname_optional "dwc_usb3", HostEvent.platform_get_irq 0] ∧
      irq_recorded (dwc3_host_get_irq p dwc).2.1 p.irq_index0) ∧
    (p.irq_byname_host = -EPROBE_DEFER →
      dwc3_host_get_irq p dwc =
        (-EPROBE_DEFER, dwc, [HostEvent.platform_get_irq_byname_optional "host"]) ∧
      dwc3_host_init p dwc =
        { ret := -EPROBE_DEFER, dwc := dwc, child := none,
          trace := [HostEvent.power_off_all_roothub_ports,
            HostEvent.platform_get_irq_byname_optional "host"] }) ∧
    (¬ 0 < p.irq_byname_host → p.irq_byname_host ≠ -EPROBE_DEFER →
      p.irq_byname_dwc_usb3 = -EPROBE_DEFER →
      dwc3_host_get_irq p dwc =
        (-EPROBE_DEFER, dwc, [HostEvent.platform_get_irq_byname_optional "host",
          HostEvent.platform_get_irq_byname_optional "dwc_usb3"]) ∧
      dwc3_host_init p dwc =
        { ret := -EPROBE_DEFER, dwc := dwc, child := none,
          trace := [HostEvent.power_off_all_roothub_ports,
            HostEvent.platform_get_irq_byname_optional "host",
            HostEvent.platform_get_irq_byname_optional "dwc_usb3"] }) := by
  have hneg := defer_negative
  have hnpos : ¬ (0 : Int) < -EPROBE_DEFER := by decide
  refine ⟨?_, ?_, ?_, ?_, ?_⟩
  · intro hp
    have hrun : dwc3_host_get_irq p dwc = (p.irq_byname_host,
        dwc3_host_fill_xhci_irq_res p dwc p.irq_byname_host (some "host"),
        [HostEvent.platform_get_irq_byname_optional "host"]) := by
      simp only [dwc3_host_get_irq, gt_iff_lt, hp, if_true]
    rw [hrun]
    exact ⟨rfl, rfl, fill_records_irq p dwc _ _ hp h1⟩
  · intro hn hd hp
    have hrun : dwc3_host_get_irq p dwc = (p.irq_byname_dwc_usb3,
        dwc3_host_fill_xhci_irq_res p dwc p.irq_byname_dwc_usb3 (some "dwc_usb3"),
        [HostEvent.platform_get_irq_byname_optional "host",
          HostEvent.platform_get_irq_byname_optional "dwc_usb3"]) := by
      simp only [dwc3_host_get_irq, gt_iff_lt, hn, hd, hp, if_true, if_false,
        List.singleton_append]
    rw [hrun]
    exact ⟨rfl, rfl, fill_records_irq p dwc _ _ hp h2⟩
  · intro hn hd hn2 hd2 hp
    have hrun : dwc3_host_get_irq p dwc = (p.irq_index0,
        dwc3_host_fill_xhci_irq_res p dwc p.irq_index0 none,
        [HostEvent.platform_get_irq_byname_optional "host",
          HostEvent.platform_get_irq_byname_optional "dwc_usb3",
          HostEvent.platform_get_irq 0]) := by
      simp only [dwc3_host_get_irq, gt_iff_lt, hn, hd, hn2, hd2, hp, if_true, if_false,
        List.singleton_append, List.cons_append, List.nil_append]
    rw [hrun]
    exact ⟨rfl, rfl, fill_records_irq p dwc _ _ hp h3⟩
  · intro hd
    have hrun : dwc3_host_get_irq p dwc =
        (-EPROBE_DEFER, dwc, [HostEvent.platform_get_irq_byname_optional "host"]) := by
      simp only [dwc3_host_get_irq, gt_iff_lt, hd, hnpos, if_true, if_false]
    refine ⟨hrun, ?_⟩
    simp only [dwc3_host_init, hrun, hneg, if_true, List.singleton_append]
  · intro hn hd hd2
    have hrun : dwc3_host_get_irq p dwc =
        (-EPROBE_DEFER, dwc, [HostEvent.platform_get_irq_byname_optional "host",
          HostEvent.platform_get_irq_byname_optional "dwc_usb3"]) := by
      simp only [dwc3_host_get_irq, gt_iff_lt, hn, hd, hd2, hnpos, if_true, if_false,
        List.singleton_append]
    refine ⟨hrun, ?_⟩
    simp only [dwc3_host_init, hrun, hneg, if_true, List.singleton_append]

/-- C8 on the sample platform: `host` is missing, `dwc_usb3` gives `33`. -/
theorem dwc3_host_get_irq_order_witness :
    is_c_int sample_platform.irq_byname_host ∧
    is_c_int sample_platform.irq_byname_dwc_usb3 ∧
    is_c_int sample_platform.irq_index0 ∧
    (dwc3_host_get_irq sample_platform sample_dwc).1 = 33 ∧
    irq_recorded (dwc3_host_get_irq sample_platform sample_dwc).2.1 33 :=
  have h1 : is_c_int sample_platform.irq_byname_host := by
    unfold is_c_int sample_platform; decide
  have h2 : is_c_int sample_platform.irq_byname_dwc_usb3 := by
    unfold is_c_int sample_platform; decide
  have h3 : is_c_int sample_platform.irq_index0 := by
    unfold is_c_int sample_platform; decide
  have h := (dwc3_host_get_irq_order sample_platform sample_dwc h1 h2 h3).2.1
    (by decide) (by decide) (by decide)
  ⟨h1, h2, h3, h.1, h.2.2⟩

theorem irq_trace_no_child_event (p : Platform) (dwc : dwc3) (c : Nat) :
    (dwc3_host_get_irq p dwc).2.2.count (HostEvent.platform_device_put c) = 0 ∧
    (dwc3_host_get_irq p dwc).2.2.count (HostEvent.platform_device_add c) = 0 := by
  simp only [dwc3_host_get_irq]
  split_ifs <;> simp

theorem host_steps_counts (dwc : dwc3) (a : Nat) (xhci : platform_device) (n : Nat) :
    (host_steps dwc a xhci n).count (HostEvent.platform_device_put a) = 0 ∧
    (host_steps dwc a xhci n).count (HostEvent.platform_device_add a)
      = if 4 ≤ n then 1 else 0 := by
  unfold host_steps
  rcases n with _ | _ | _ | _ | _ | n <;> cases dwc.of_node.isSome <;>
    simp [List.count_cons, List.take]

theorem host_failed_counts (d1 : dwc3) (t : List HostEvent) (a n : Nat) (e : Int)
    (htp : t.count (HostEvent.platform_device_put a) = 0)
    (hta : t.count (HostEvent.platform_device_add a) = 0) :
    (host_failed d1 t a n e).trace.count (HostEvent.platform_device_put a) = 1 ∧
    (host_failed d1 t a n e).trace.count (HostEvent.platform_device_add a)
      = if 4 ≤ n then 1 else 0 := by
  obtain ⟨h1, h2⟩ := host_steps_counts d1 a (new_child d1 a) n
  simp [host_failed, List.count_append, List.count_cons, htp, hta, h1, h2]

theorem host_succeeded_counts (d1 : dwc3) (t : List HostEvent) (a : Nat)
    (htp : t.count (HostEvent.platform_device_put a) = 0)
    (hta : t.count (HostEvent.platform_device_add a) = 0) :
    (host_succeeded d1 t a).trace.count (HostEvent.platform_device_put a) = 0 ∧
    (host_succeeded d1 t a).trace.count (HostEvent.platform_device_add a) = 1 := by
  obtain ⟨h1, h2⟩ := host_steps_counts d1 a (new_child d1 a) 4
  simp [host_succeeded, List.count_append, List.count_cons, htp, hta, h1, h2]

/-- C9: suppose the interrupt lookup did not return a negative value and the
child was allocated at `a`.  If `of_dma_configure` (reached when the parent has
a node), `platform_device_add_resources`, `device_create_managed_software_node`
or `platform_device_add` is the first step to return non-zero, then
`dwc3_host_init` returns that value, the calls made end with that step
followed by `platform_device_put a`, the child is put exactly once,
`dwc->xhci` is null afterwards, and `platform_device_add` is not called unless
it is the failing step.  If none fails, the result is `0`, `dwc->xhci` is
`a`, the child was added once and never put. -/
theorem dwc3_host_init_unwinds (p : Platform) (dwc d1 : dwc3) (irq : Int)
    (t : List HostEvent) (a : Nat)
    (hget : dwc3_host_get_irq p dwc = (irq, d1, t)) (hirq : ¬ irq < 0)
    (halloc : p.platform_device_alloc = some a) :
    (d1.of_node.isSome = true → p.of_dma_configure ≠ 0 →
      dwc3_host_init p dwc = host_failed d1 t a 0 p.of_dma_configure ∧
      (dwc3_host_init p dwc).ret = p.of_dma_configure ∧
      (dwc3_host_init p dwc).dwc.xhci = none ∧
      (dwc3_host_init p dwc).trace.count (HostEvent.platform_device_put a) = 1 ∧
      (dwc3_host_init p dwc).trace.count (HostEvent.platform_device_add a) = 0) ∧
    ((d1.of_node.isSome = true → p.of_dma_configure = 0) →
      p.platform_device_add_resources ≠ 0 →
      dwc3_host_init p dwc = host_failed d1 t a 1 p.platform_device_add_resources ∧
      (dwc3_host_init p dwc).ret = p.platform_device_add_resources ∧
      (dwc3_host_init p dwc).dwc.xhci = none ∧
      (dwc3_host_init p dwc).trace.count (HostEvent.platform_device_put a) = 1 ∧
      (dwc3_host_init p dwc).trace.count (HostEvent.platform_device_add a) = 0) ∧
    ((d1.of_node.isSome = true → p.of_dma_configure = 0) →
      p.platform_device_add_resources = 0 →
      p.device_create_managed_software_node ≠ 0 →
      dwc3_host_init p dwc = host_failed d1 t a 2 p.device_create_managed_software_node ∧
      (dwc3_host_init p dwc).ret = p.device_create_managed_software_node ∧
      (dwc3_host_init p dwc).dwc.xhci = none ∧
      (dwc3_host_init p dwc).trace.count (HostEvent.platform_device_put a) = 1 ∧
      (dwc3_host_init p dwc).trace.count (HostEvent.platform_device_add a) = 0) ∧
    ((d1.of_node.isSome = true → p.of_dma_configure = 0) →
      p.platform_device_add_resources = 0 →
      p.device_create_managed_software_node = 0 →
      p.platform_device_add ≠ 0 →
      dwc3_host_init p dwc = host_failed d1 t a 4 p.platform_device_add ∧
      (dwc3_host_init p dwc).ret = p.platform_device_add ∧
      (dwc3_host_init p dwc).dwc.xhci = none ∧
      (dwc3_host_init p dwc).trace.count (HostEvent.platform_device_put a) = 1) ∧
    ((d1.of_node.isSome = true → p.of_dma_configure = 0) →
      p.platform_device_add_resources = 0 →
      p.device_create_managed_software_node = 0 →
      p.platform_device_add = 0 →
      dwc3_host_init p dwc = host_succeeded d1 t a ∧
      (dwc3_host_init p dwc).ret = 0 ∧
      (dwc3_host_init p dwc).dwc.xhci = some a ∧
      (dwc3_host_init p dwc).trace.count (HostEvent.platform_device_put a) = 0 ∧
      (dwc3_host_init p dwc).trace.count (HostEvent.platform_device_add a) = 1) := by
  have ht := irq_trace_no_child_event p dwc a
  rw [hget] at ht
  obtain ⟨htp, hta⟩ := ht
  have hprops : (host_props d1).length ≠ 0 := by
    unfold host_props; cases d1.usb3_lpm_capable <;> simp
  have hcfg : ∀ (_ : d1.of_node.isSome = true → p.of_dma_configure = 0),
      d1.of_node.isSome = false ∨ p.of_dma_configure = 0 := by
    intro h
    cases hs : d1.of_node.isSome with
    | false => exact Or.inl rfl
    | true => exact Or.inr (h hs)
  refine ⟨?_, ?_, ?_, ?_, ?_⟩
  · intro hn he
    have hrun : dwc3_host_init p dwc = host_failed d1 t a 0 p.of_dma_configure := by
      simp [dwc3_host_init, hget, hirq, halloc, hn, he, host_init_err, host_failed, host_steps,
        new_child]
    have hc := host_failed_counts d1 t a 0 p.of_dma_configure htp hta
    rw [hrun]
    exact ⟨rfl, rfl, rfl, hc.1, hc.2⟩
  · intro h0 he
    have hrun : dwc3_host_init p dwc = host_failed d1 t a 1 p.platform_device_add_resources := by
      rcases Bool.eq_false_or_eq_true d1.of_node.isSome with hs | hs <;>
      rcases hcfg h0 with hz | hz <;>
      simp [dwc3_host_init, hget, hirq, halloc, hz, hs, new_child, he, host_init_err, host_failed,
        host_steps]
    have hc := host_failed_counts d1 t a 1 p.platform_device_add_resources htp hta
    rw [hrun]
    exact ⟨rfl, rfl, rfl, hc.1, hc.2⟩
  · intro h0 h1 he
    have hrun : dwc3_host_init p dwc
        = host_failed d1 t a 2 p.device_create_managed_software_node := by
      rcases Bool.eq_false_or_eq_true d1.of_node.isSome with hs | hs <;>
      rcases hcfg h0 with hz | hz <;>
      simp [dwc3_host_init, hget, hirq, halloc, hz, hs, new_child, h1, he, hprops, host_init_err,
        host_failed, host_steps, host_props]
    have hc := host_failed_counts d1 t a 2 p.device_create_managed_software_node htp hta
    rw [hrun]
    exact ⟨rfl, rfl, rfl, hc.1, hc.2⟩
  · intro h0 h1 h2 he
    have hrun : dwc3_host_init p dwc = host_failed d1 t a 4 p.platform_device_add := by
      rcases Bool.eq_false_or_eq_true d1.of_node.isSome with hs | hs <;>
      rcases hcfg h0 with hz | hz <;>
      simp [dwc3_host_init, hget, hirq, halloc, hz, hs, new_child, h1, h2, he, hprops, host_init_err,
        host_failed, host_steps, host_props]
    have hc := host_failed_counts d1 t a 4 p.platform_device_add htp hta
    rw [hrun]
    exact ⟨rfl, rfl, rfl, hc.1⟩
  · intro h0 h1 h2 h3
    have hrun : dwc3_host_init p dwc = host_succeeded d1 t a := by
      rcases Bool.eq_false_or_eq_true d1.of_node.isSome with hs | hs <;>
      rcases hcfg h0 with hz | hz <;>
      simp [dwc3_host_init, hget, hirq, halloc, hz, hs, new_child, h1, h2, h3, hprops, host_succeeded,
        host_steps, host_props]
    have hc := host_succeeded_counts d1 t a htp hta
    rw [hrun]
    exact ⟨rfl, rfl, rfl, hc.1, hc.2⟩

/-- C9 on the sample platform, where adding the resources fails with `-12`. -/
theorem dwc3_host_init_unwinds_witness :
    ¬ (dwc3_host_get_irq sample_platform sample_dwc).1 < 0 ∧
    sample_platform.platform_device_alloc = some 77 ∧
    (dwc3_host_init sample_platform sample_dwc).ret = -12 ∧
    (dwc3_host_init sample_platform sample_dwc).dwc.xhci = none ∧
    (dwc3_host_init sample_platform sample_dwc).trace.count
      (HostEvent.platform_device_put 77) = 1 :=
  have h := (dwc3_host_init_unwinds sample_platform sample_dwc
    (dwc3_host_get_irq sample_platform sample_dwc).2.1
    (dwc3_host_get_irq sample_platform sample_dwc).1
    (dwc3_host_get_irq sample_platform sample_dwc).2.2 77 rfl (by decide) rfl).2.1
    (fun _ => rfl) (by decide)
  ⟨by decide, rfl, h.2.1, h.2.2.1, h.2.2.2.1⟩

end Dwc3Host
